import Mathlib

/-!
Shallow embedding of the st1-sqlalchemy connection/session manager
(src/st1_sqlalchemy/__init__.py): the DatabaseServer registry with its
per-database engine/session-factory cache, the DatabaseManager registry of
servers, and the DatabaseContext scoped session acquisition/release
protocol.  Python dictionaries are modelled as association lists, Python
exceptions as an explicit error type, and the external SQLAlchemy driver
calls (create_engine, create_async_engine, sessionmaker) as constructors of
record values carrying exactly the fields the source passes to URL.create;
engine objects receive a fresh allocation identifier so that "the same
underlying connection handle" is expressible.
-/

/-- Python exception values that the embedded code can raise.  The
constructors attributeError, keyError, typeError and indexError model the
built-in Python exceptions the source can raise; driverError models an
exception raised by an external driver call (session instantiation or
session close); configurationError models the ConfigurationError class
named by the specification taxonomy, which the source never defines nor
raises (it exists here so that statements about it can be formalised). -/
inductive PyError
  | attributeError (name : String)
  | keyError (key : String)
  | typeError (msg : String)
  | indexError (msg : String)
  | driverError (sessionId : Nat)
  | configurationError
deriving DecidableEq, Repr

/-- Python truthiness of an optional string: None and the empty string are
falsy, every other string is truthy. -/
def strTruthy : Option String → Bool
  | none => false
  | some s => s != ""

/-- Lookup in a Python dict modelled as an association list. -/
def dictLookup {K V : Type} [DecidableEq K] (k : K) : List (K × V) → Option V
  | [] => none
  | (k2, v) :: rest => if k2 = k then some v else dictLookup k rest

/-- Insertion into a Python dict modelled as an association list: replace
the binding in place when the key is present, append otherwise. -/
def dictInsert {K V : Type} [DecidableEq K] (k : K) (v : V) :
    List (K × V) → List (K × V)
  | [] => [(k, v)]
  | (k2, v2) :: rest =>
      if k2 = k then (k, v) :: rest else (k2, v2) :: dictInsert k v rest

/-- Membership test of a Python dict key. -/
def dictContains {K V : Type} [DecidableEq K] (k : K) (d : List (K × V)) : Bool :=
  (dictLookup k d).isSome

/-- Engine kinds for which the DatabaseServer class has a creation method
named _create_{kind}: exactly _create_mssql, _create_postgres and
_create_async_postgres exist on the class. -/
inductive EngineKind
  | mssql
  | postgres
  | async_postgres
deriving DecidableEq, Repr

/-- Resolution of getattr(self, "_create_" ++ engine) against the methods
defined on the DatabaseServer class; none means AttributeError. -/
def engineKindOfString : String → Option EngineKind
  | "mssql" => some EngineKind.mssql
  | "postgres" => some EngineKind.postgres
  | "async_postgres" => some EngineKind.async_postgres
  | _ => none

/-- Connection handle returned by the external driver (create_engine or
create_async_engine).  The fields record the URL.create arguments the
source passes; id is a fresh allocation identifier distinguishing distinct
handle creations; isAsync records whether the handle is an AsyncEngine. -/
structure EngineObj where
  id : Nat
  drivername : String
  username : String
  password : String
  host : String
  port : Nat
  database : Option String
  isAsync : Bool
deriving DecidableEq, Repr

/-- Session classes a sessionmaker can be configured with.  The source
selects AsyncEngine for asynchronous engines and Session otherwise;
asyncSessionCls (AsyncSession) exists in the model only so that statements
distinguishing it can be formalised. -/
inductive SessionClass
  | sessionCls
  | asyncEngineCls
  | asyncSessionCls
deriving DecidableEq, Repr

/-- Session factory: a sessionmaker holding the engine it is bound to and
configured with a session class and expire_on_commit. -/
structure SessionMaker where
  bind : EngineObj
  sessionClass : SessionClass
  expireOnCommit : Bool
deriving DecidableEq, Repr

/-- Object produced by calling a sessionmaker: sessionmaker call semantics
construct an instance of the configured session class. -/
structure SessionInstance where
  cls : SessionClass
deriving DecidableEq, Repr

/-- Calling a session factory yields an instance of its configured class. -/
def SessionMaker.call (mk : SessionMaker) : SessionInstance :=
  { cls := mk.sessionClass }

/-- State of a DatabaseServer instance: connection fields, the engine kind
bound by getattr at construction, the private database cache mapping
database name (possibly None) to the (engine, sessionmaker) pair, the
default database, and the allocation counter supplying fresh engine
identifiers. -/
structure DatabaseServer where
  host : String
  port : Nat
  username : String
  password : String
  engineKind : EngineKind
  databases : List (Option String × (EngineObj × SessionMaker))
  default_database : Option String
  nextEngineId : Nat
deriving DecidableEq, Repr

/-- Model of DatabaseServer._create_mssql: build a URL from the server
fields and the database name and call create_engine. -/
def DatabaseServer._create_mssql (s : DatabaseServer) (database : Option String) :
    EngineObj :=
  { id := s.nextEngineId, drivername := "mssql+pyodbc", username := s.username,
    password := s.password, host := s.host, port := s.port,
    database := database, isAsync := false }

/-- Model of DatabaseServer._create_postgres. -/
def DatabaseServer._create_postgres (s : DatabaseServer) (database : Option String) :
    EngineObj :=
  { id := s.nextEngineId, drivername := "postgresql", username := s.username,
    password := s.password, host := s.host, port := s.port,
    database := database, isAsync := false }

/-- Model of DatabaseServer._create_async_postgres: create_async_engine
returns an AsyncEngine. -/
def DatabaseServer._create_async_postgres (s : DatabaseServer)
    (database : Option String) : EngineObj :=
  { id := s.nextEngineId, drivername := "postgresql+asyncpg",
    username := s.username, password := s.password, host := s.host,
    port := s.port, database := database, isAsync := true }

/-- The engine-creation method bound by getattr at construction, dispatched
on the resolved kind. -/
def DatabaseServer._create_engine (s : DatabaseServer) (database : Option String) :
    EngineObj :=
  match s.engineKind with
  | EngineKind.mssql => s._create_mssql database
  | EngineKind.postgres => s._create_postgres database
  | EngineKind.async_postgres => s._create_async_postgres database

/-- Model of DatabaseServer._create: create the engine, choose the session
class (AsyncEngine when the engine is an AsyncEngine, Session otherwise),
build the sessionmaker with expire_on_commit False, store the pair in the
cache, and return it. -/
def DatabaseServer._create (s : DatabaseServer) (database : Option String) :
    (EngineObj × SessionMaker) × DatabaseServer :=
  let engine := s._create_engine database
  let session_cls :=
    if engine.isAsync then SessionClass.asyncEngineCls else SessionClass.sessionCls
  let session_maker : SessionMaker :=
    { bind := engine, sessionClass := session_cls, expireOnCommit := false }
  let pair := (engine, session_maker)
  (pair,
    { s with databases := dictInsert database pair s.databases,
             nextEngineId := s.nextEngineId + 1 })

/-- Model of DatabaseServer._get_or_create: return the cached pair when the
database key is present, otherwise create it. -/
def DatabaseServer._get_or_create (s : DatabaseServer) (database : Option String) :
    (EngineObj × SessionMaker) × DatabaseServer :=
  match dictLookup database s.databases with
  | some pair => (pair, s)
  | none => s._create database

/-- Model of DatabaseServer.get_session_maker: when the database argument
is falsy substitute the default database, then get or create and return the
session factory. -/
def DatabaseServer.get_session_maker (s : DatabaseServer)
    (database : Option String) : SessionMaker × DatabaseServer :=
  let database := if strTruthy database then database else s.default_database
  let r := s._get_or_create database
  (r.1.2, r.2)

/-- Model of DatabaseServer.__init__: store the connection fields, bind the
engine-creation method by getattr (AttributeError when no method named
_create_{engine} exists), initialise an empty cache and the default
database, and, when the default is truthy, eagerly get-or-create its
entry. -/
def DatabaseServer.init (host username password : String) (port : Nat)
    (engine : String) (default : Option String) : Except PyError DatabaseServer :=
  match engineKindOfString engine with
  | none => Except.error (PyError.attributeError ("_create_" ++ engine))
  | some kind =>
      let s : DatabaseServer :=
        { host := host, port := port, username := username, password := password,
          engineKind := kind, databases := [], default_database := default,
          nextEngineId := 0 }
      if strTruthy default then Except.ok (s._get_or_create default).2
      else Except.ok s

/-- State of a DatabaseManager: the private dict of servers keyed by host,
and the default server attribute, none meaning the attribute was never
assigned (it is only assigned in __init__ when at least one server is
passed). -/
structure DatabaseManager where
  database_servers : List (String × DatabaseServer)
  default_server : Option String
deriving DecidableEq, Repr

/-- Model of DatabaseManager.add: insert each server keyed by its host,
replacing any existing binding. -/
def DatabaseManager.add (m : DatabaseManager) (db_servers : List DatabaseServer) :
    DatabaseManager :=
  db_servers.foldl
    (fun acc srv =>
      { acc with database_servers := dictInsert srv.host srv acc.database_servers })
    m

/-- Model of DatabaseManager.__init__: the first passed server becomes the
default, then all servers are added. -/
def DatabaseManager.init (db_servers : List DatabaseServer) : DatabaseManager :=
  let m : DatabaseManager := { database_servers := [], default_server := none }
  let m :=
    match db_servers with
    | [] => m
    | srv :: _ => { m with default_server := some srv.host }
  m.add db_servers

/-- Reading self.default_server: AttributeError when it was never
assigned. -/
def DatabaseManager.default_key (m : DatabaseManager) : Except PyError String :=
  match m.default_server with
  | some h => Except.ok h
  | none => Except.error (PyError.attributeError "default_server")

/-- Key used by DatabaseManager.get: the given host when truthy, otherwise
the default server attribute. -/
def DatabaseManager.resolve_key (m : DatabaseManager) (host : Option String) :
    Except PyError String :=
  if strTruthy host then Except.ok (host.getD "") else m.default_key

/-- Model of DatabaseManager.get: dict lookup of the resolved key,
KeyError when absent. -/
def DatabaseManager.get (m : DatabaseManager) (host : Option String) :
    Except PyError DatabaseServer :=
  match m.resolve_key host with
  | Except.error e => Except.error e
  | Except.ok k =>
      match dictLookup k m.database_servers with
      | some srv => Except.ok srv
      | none => Except.error (PyError.keyError k)

/-- Model of manager.get(host).get_session_maker(database) with the
mutation of the resolved server written back into the manager (Python
mutates the server object in place; the object is stored under the
resolved key). -/
def DatabaseManager.get_session_maker_via (m : DatabaseManager)
    (host database : Option String) :
    Except PyError (SessionMaker × DatabaseManager) :=
  match m.resolve_key host with
  | Except.error e => Except.error e
  | Except.ok k =>
      match dictLookup k m.database_servers with
      | none => Except.error (PyError.keyError k)
      | some srv =>
          let r := srv.get_session_maker database
          Except.ok (r.1,
            { m with database_servers := dictInsert k r.2 m.database_servers })

/-- Database reference shorthand (the DBR type of the absent types module,
shapes taken from the isinstance and len checks in DatabaseContext.__init__
and the specification): a bare string token or a tuple of strings. -/
inductive DBR
  | str (token : String)
  | tup (elems : List String)
deriving DecidableEq, Repr

/-- Per-reference resolution performed by DatabaseContext.__init__: host
and database start as None; only a tuple reference assigns them (a pair
assigns both, any other nonempty tuple assigns host from element 0, the
empty tuple raises IndexError); a bare string leaves both None. -/
def DatabaseContext.resolve_ref : DBR → Except PyError (Option String × Option String)
  | DBR.str _ => Except.ok (none, none)
  | DBR.tup [] => Except.error (PyError.indexError "tuple index out of range")
  | DBR.tup [h, d] => Except.ok (some h, some d)
  | DBR.tup (h :: _) => Except.ok (some h, none)

/-- Loop of DatabaseContext.__init__ over the references, threading the
manager state through the session-factory requests. -/
def DatabaseContext.resolve_loop (m : DatabaseManager) :
    List DBR → Except PyError (List SessionMaker × DatabaseManager)
  | [] => Except.ok ([], m)
  | ref :: rest =>
      match DatabaseContext.resolve_ref ref with
      | Except.error e => Except.error e
      | Except.ok hd =>
          match m.get_session_maker_via hd.1 hd.2 with
          | Except.error e => Except.error e
          | Except.ok r =>
              match DatabaseContext.resolve_loop r.2 rest with
              | Except.error e => Except.error e
              | Except.ok rec2 => Except.ok (r.1 :: rec2.1, rec2.2)

/-- Model of DatabaseContext.__init__: a falsy use argument (None or the
empty list) requests one factory from the default server with its default
database; otherwise each reference is resolved in order. -/
def DatabaseContext.resolve_makers (m : DatabaseManager)
    (use : Option (List DBR)) :
    Except PyError (List SessionMaker × DatabaseManager) :=
  match use with
  | none => (m.get_session_maker_via none none).map (fun r => ([r.1], r.2))
  | some [] => (m.get_session_maker_via none none).map (fun r => ([r.1], r.2))
  | some refs => DatabaseContext.resolve_loop m refs

/-- Session held by an open scope, as the close protocol observes it: an
identifier and whether its close method is a coroutine function (an
asynchronous close contract). -/
structure ScopeSession where
  sid : Nat
  closeAsync : Bool
deriving DecidableEq, Repr

/-- Observable events of the scope lifecycle: session instantiation
attempts and close attempts, by position or session identifier. -/
inductive ScopeEvent
  | instantiated (i : Nat)
  | instantiateFailed (i : Nat)
  | closeAttempt (i : Nat)
  | closeFailed (i : Nat)
deriving DecidableEq, Repr

/-- Value of inspect.iscoroutinefunction applied to a session object, as
DatabaseContext.__aexit__ does: a Session, AsyncSession or AsyncEngine
instance is an object, not an async function, so the test is False for
every session a scope can hold (the source inspects the session itself,
not its close method). -/
def iscoroutinefunction_on_instance (_s : ScopeSession) : Bool := false

/-- Loop of DatabaseContext.__aenter__ building the sessions tuple: call
each factory in order (outcome i is the result of calling factory i, none
meaning the call raised); the first failure aborts the tuple construction,
so the sessions attribute is only assigned (some list) when every call
succeeded. -/
def DatabaseContext.aenter_loop (outcome : Nat → Option ScopeSession) :
    List SessionMaker → Nat → List ScopeEvent × Option (List ScopeSession)
  | [], _ => ([], some [])
  | _ :: rest, i =>
      match outcome i with
      | none => ([ScopeEvent.instantiateFailed i], none)
      | some s =>
          let r := DatabaseContext.aenter_loop outcome rest (i + 1)
          (ScopeEvent.instantiated i :: r.1, r.2.map (fun l => s :: l))

/-- Model of DatabaseContext.__aenter__ over the stored factories. -/
def DatabaseContext.aenter (makers : List SessionMaker)
    (outcome : Nat → Option ScopeSession) :
    List ScopeEvent × Option (List ScopeSession) :=
  DatabaseContext.aenter_loop outcome makers 0

/-- Loop of DatabaseContext.__aexit__ over the sessions: for each session,
branch on iscoroutinefunction of the session object (always False); on the
taken branch, wrap session.close in sync_to_async, which raises TypeError
when close is a coroutine function, before any close is attempted;
otherwise the close runs (closeFails gives whether it raises).  No close
failure is caught, so the first exception aborts the loop. -/
def DatabaseContext.aexit_loop (closeFails : Nat → Bool) :
    List ScopeSession → List ScopeEvent × Option PyError
  | [] => ([], none)
  | s :: rest =>
      if iscoroutinefunction_on_instance s then
        if closeFails s.sid then
          ([ScopeEvent.closeAttempt s.sid, ScopeEvent.closeFailed s.sid],
            some (PyError.driverError s.sid))
        else
          let r := DatabaseContext.aexit_loop closeFails rest
          (ScopeEvent.closeAttempt s.sid :: r.1, r.2)
      else
        if s.closeAsync then
          ([], some (PyError.typeError
            "sync_to_async can only be applied to sync functions"))
        else if closeFails s.sid then
          ([ScopeEvent.closeAttempt s.sid, ScopeEvent.closeFailed s.sid],
            some (PyError.driverError s.sid))
        else
          let r := DatabaseContext.aexit_loop closeFails rest
          (ScopeEvent.closeAttempt s.sid :: r.1, r.2)

/-- Model of DatabaseContext.__aexit__: return immediately when the
sessions attribute is falsy (never assigned, or the empty tuple), otherwise
run the close loop. -/
def DatabaseContext.aexit (sessions : Option (List ScopeSession))
    (closeFails : Nat → Bool) : List ScopeEvent × Option PyError :=
  match sessions with
  | none => ([], none)
  | some [] => ([], none)
  | some l => DatabaseContext.aexit_loop closeFails l

/-! Helper lemmas about the dict model and the cache operations. -/

theorem dictLookup_insert_self {K V : Type} [DecidableEq K] (k : K) (v : V)
    (d : List (K × V)) : dictLookup k (dictInsert k v d) = some v := by
  induction d with
  | nil => simp [dictInsert, dictLookup]
  | cons hd tl ih =>
      obtain ⟨k2, v2⟩ := hd
      by_cases h : k2 = k
      · simp [dictInsert, dictLookup, h]
      · simp [dictInsert, dictLookup, h, ih]

theorem dictInsert_insert_self {K V : Type} [DecidableEq K] (k : K) (v : V)
    (d : List (K × V)) : dictInsert k v (dictInsert k v d) = dictInsert k v d := by
  induction d with
  | nil => simp [dictInsert]
  | cons hd tl ih =>
      obtain ⟨k2, v2⟩ := hd
      by_cases h : k2 = k
      · simp [dictInsert, h]
      · simp [dictInsert, h, ih]

theorem get_or_create_lookup (s : DatabaseServer) (d : Option String) :
    dictLookup d ((s._get_or_create d).2).databases = some (s._get_or_create d).1 := by
  unfold DatabaseServer._get_or_create
  cases h : dictLookup d s.databases with
  | some pair => simp [h]
  | none => simp [h, DatabaseServer._create, dictLookup_insert_self]

theorem get_or_create_default_database (s : DatabaseServer) (d : Option String) :
    ((s._get_or_create d).2).default_database = s.default_database := by
  unfold DatabaseServer._get_or_create
  cases h : dictLookup d s.databases with
  | some pair => simp [h]
  | none => simp [h, DatabaseServer._create]

theorem get_or_create_idem (s : DatabaseServer) (d : Option String) :
    ((s._get_or_create d).2)._get_or_create d = s._get_or_create d := by
  conv_lhs => rw [DatabaseServer._get_or_create]
  rw [get_or_create_lookup s d]

theorem get_session_maker_idem (s : DatabaseServer) (d : Option String) :
    ((s.get_session_maker d).2).get_session_maker d = s.get_session_maker d := by
  unfold DatabaseServer.get_session_maker
  rw [get_or_create_default_database]
  dsimp only
  rw [get_or_create_idem]

theorem resolve_key_update (m : DatabaseManager)
    (x : List (String × DatabaseServer)) (host : Option String) :
    ({ m with database_servers := x } : DatabaseManager).resolve_key host =
      m.resolve_key host := rfl

theorem get_session_maker_via_idem (m : DatabaseManager) (host db : Option String)
    (mk : SessionMaker) (m1 : DatabaseManager)
    (h : m.get_session_maker_via host db = Except.ok (mk, m1)) :
    m1.get_session_maker_via host db = Except.ok (mk, m1) := by
  unfold DatabaseManager.get_session_maker_via at h ⊢
  cases hk : m.resolve_key host with
  | error e => rw [hk] at h; exact absurd h (by simp)
  | ok k =>
      rw [hk] at h
      dsimp only at h
      cases hl : dictLookup k m.database_servers with
      | none => rw [hl] at h; exact absurd h (by simp)
      | some srv =>
          rw [hl] at h
          simp only [Except.ok.injEq, Prod.mk.injEq] at h
          obtain ⟨hmk, hm1⟩ := h
          subst hmk
          subst hm1
          rw [resolve_key_update, hk]
          dsimp only
          rw [dictLookup_insert_self]
          dsimp only
          rw [get_session_maker_idem]
          simp [dictInsert_insert_self]

/-- Fixture server used as a fallback value when extracting from Except. -/
def dummyServer : DatabaseServer :=
  { host := "", port := 0, username := "", password := "",
    engineKind := EngineKind.mssql, databases := [], default_database := none,
    nextEngineId := 0 }

/-- Fixture engine used as a fallback value when extracting from Option. -/
def dummyEngine : EngineObj :=
  { id := 0, drivername := "", username := "", password := "", host := "",
    port := 0, database := none, isAsync := false }

/-- Fixture: server A, postgres, default database adb, as constructed by
DatabaseServer.__init__. -/
def srvA : DatabaseServer :=
  (DatabaseServer.init "A" "u" "p" 5432 "postgres" (some "adb")).toOption.getD
    dummyServer

/-- Fixture: server B, postgres, default database bdb. -/
def srvB : DatabaseServer :=
  (DatabaseServer.init "B" "u" "p" 5432 "postgres" (some "bdb")).toOption.getD
    dummyServer

/-- Fixture: manager holding only server A. -/
def mgrA : DatabaseManager := DatabaseManager.init [srvA]

/-- Fixture: the first session-factory request against mgrA. -/
def mgrA_first : Except PyError (SessionMaker × DatabaseManager) :=
  mgrA.get_session_maker_via (some "A") (some "orders")

/-- Fixture: the factory returned by the first request. -/
def mkW : SessionMaker :=
  (mgrA_first.toOption.map Prod.fst).getD
    { bind := dummyEngine, sessionClass := SessionClass.sessionCls,
      expireOnCommit := false }

/-- Fixture: the manager state after the first request. -/
def mgrA1 : DatabaseManager := (mgrA_first.toOption.map Prod.snd).getD mgrA

/-- C4: for every server registry and database name, a second get-or-create
for the same name returns the cached pair and leaves the registry state
unchanged (no second connection handle is created); consequently,
requesting the same (host, database) twice from the same manager returns
the same session factory, backed by the same engine, and the same manager
state. -/
theorem C4_cache_identity :
    (∀ (s : DatabaseServer) (d : Option String),
        ((s._get_or_create d).2)._get_or_create d = s._get_or_create d) ∧
    (∀ (m : DatabaseManager) (host db : Option String) (mk : SessionMaker)
        (m1 : DatabaseManager),
        m.get_session_maker_via host db = Except.ok (mk, m1) →
        m1.get_session_maker_via host db = Except.ok (mk, m1)) :=
  ⟨get_or_create_idem, get_session_maker_via_idem⟩

/-- Witness for C4 at a concrete manager: the first request succeeds and
the second request returns the identical factory and state. -/
theorem C4_witness :
    mgrA.get_session_maker_via (some "A") (some "orders") = Except.ok (mkW, mgrA1) ∧
    mgrA1.get_session_maker_via (some "A") (some "orders") = Except.ok (mkW, mgrA1) := by
  have h1 : mgrA.get_session_maker_via (some "A") (some "orders") =
      Except.ok (mkW, mgrA1) := by rfl
  exact ⟨h1, C4_cache_identity.2 mgrA (some "A") (some "orders") mkW mgrA1 h1⟩

/-- Fixture: an asynchronous postgres server registry. -/
def srvAsync : DatabaseServer :=
  { host := "H", port := 5432, username := "u", password := "p",
    engineKind := EngineKind.async_postgres, databases := [],
    default_database := none, nextEngineId := 0 }

/-- C10: for a registry whose engine kind is async_postgres, the factory
cached by _create is configured with session class AsyncEngine, not
AsyncSession, so every object instantiated from it is an AsyncEngine
instance; only the synchronous kinds yield factories producing Session
instances. -/
theorem C10_async_factory_class (s : DatabaseServer) (d : Option String)
    (h : s.engineKind = EngineKind.async_postgres) :
    ((s._create d).1.2).sessionClass = SessionClass.asyncEngineCls ∧
    ((s._create d).1.2).sessionClass ≠ SessionClass.asyncSessionCls ∧
    ((s._create d).1.2).call.cls = SessionClass.asyncEngineCls ∧
    dictLookup d ((s._create d).2).databases = some (s._create d).1 ∧
    (∀ (s2 : DatabaseServer) (d2 : Option String),
        s2.engineKind = EngineKind.mssql ∨ s2.engineKind = EngineKind.postgres →
        ((s2._create d2).1.2).sessionClass = SessionClass.sessionCls) := by
  refine ⟨?_, ?_, ?_, ?_, ?_⟩
  · simp [DatabaseServer._create, DatabaseServer._create_engine, h,
      DatabaseServer._create_async_postgres]
  · simp [DatabaseServer._create, DatabaseServer._create_engine, h,
      DatabaseServer._create_async_postgres]
  · simp [DatabaseServer._create, DatabaseServer._create_engine, h,
      DatabaseServer._create_async_postgres, SessionMaker.call]
  · simp [DatabaseServer._create, dictLookup_insert_self]
  · intro s2 d2 h2
    rcases h2 with h2 | h2 <;>
      simp [DatabaseServer._create, DatabaseServer._create_engine, h2,
        DatabaseServer._create_mssql, DatabaseServer._create_postgres]

/-- Witness for C10 at a concrete asynchronous registry. -/
theorem C10_witness :
    ((srvAsync._create (some "orders")).1.2).sessionClass =
      SessionClass.asyncEngineCls ∧
    ((srvAsync._create (some "orders")).1.2).sessionClass ≠
      SessionClass.asyncSessionCls ∧
    ((srvAsync._create (some "orders")).1.2).call.cls =
      SessionClass.asyncEngineCls ∧
    dictLookup (some "orders") ((srvAsync._create (some "orders")).2).databases =
      some (srvAsync._create (some "orders")).1 ∧
    (∀ (s2 : DatabaseServer) (d2 : Option String),
        s2.engineKind = EngineKind.mssql ∨ s2.engineKind = EngineKind.postgres →
        ((s2._create d2).1.2).sessionClass = SessionClass.sessionCls) :=
  C10_async_factory_class srvAsync (some "orders") rfl

/-- C7 counterexample: construction with the unrecognized engine kind
oracle raises AttributeError, which is not the ConfigurationError the
claim names (the source defines no ConfigurationError at all). -/
theorem C7_counterexample :
    DatabaseServer.init "h" "u" "p" 1433 "oracle" none =
      Except.error (PyError.attributeError "_create_oracle") ∧
    PyError.attributeError "_create_oracle" ≠ PyError.configurationError :=
  ⟨rfl, by simp⟩

/-- C7 amended: constructing a server registry with an unrecognized engine
kind fails immediately at construction time with AttributeError from the
dynamic method lookup, never deferred to the first session-factory
request. -/
theorem C7_amended (host u p : String) (port : Nat) (engine : String)
    (d : Option String) (h : engineKindOfString engine = none) :
    DatabaseServer.init host u p port engine d =
      Except.error (PyError.attributeError ("_create_" ++ engine)) := by
  unfold DatabaseServer.init
  rw [h]

/-- Witness for C7 at the concrete engine string oracle. -/
theorem C7_witness :
    DatabaseServer.init "h" "u" "p" 1433 "oracle" none =
      Except.error (PyError.attributeError ("_create_" ++ "oracle")) :=
  C7_amended "h" "u" "p" 1433 "oracle" none rfl

/-- Fixture: a postgres registry with no default database and an empty
cache, as constructed by DatabaseServer.__init__. -/
def srvNoDefault : DatabaseServer :=
  (DatabaseServer.init "h" "u" "p" 5432 "postgres" none).toOption.getD dummyServer

/-- Fixture: the engine the h registry creates for database None. -/
def pgEngineNoneH : EngineObj :=
  { id := 0, drivername := "postgresql", username := "u", password := "p",
    host := "h", port := 5432, database := none, isAsync := false }

/-- Fixture: the factory bound to that engine. -/
def pgMakerNoneH : SessionMaker :=
  { bind := pgEngineNoneH, sessionClass := SessionClass.sessionCls,
    expireOnCommit := false }

/-- C8 counterexample: requesting a session factory with no database name
from a registry with no configured default does not fail at all: it
substitutes None, creates a connection handle for database None, caches it
under the None key and returns its factory. -/
theorem C8_counterexample :
    srvNoDefault.get_session_maker none =
      (pgMakerNoneH,
       { host := "h", port := 5432, username := "u", password := "p",
         engineKind := EngineKind.postgres,
         databases := [(none, (pgEngineNoneH, pgMakerNoneH))],
         default_database := none, nextEngineId := 1 }) := rfl

/-- C8 amended: with no database argument and no configured default, the
request does not raise: it substitutes None and creates and caches a
connection handle whose database is None; when a default is configured,
the request substitutes it. -/
theorem C8_amended :
    (∀ s : DatabaseServer, s.default_database = none →
        dictLookup none s.databases = none →
        s.get_session_maker none = ((s._create none).1.2, (s._create none).2) ∧
        ((s._create none).1.1).database = none) ∧
    (∀ (s : DatabaseServer) (d : String), s.default_database = some d →
        s.get_session_maker none = s.get_session_maker (some d)) := by
  constructor
  · intro s hd hmiss
    constructor
    · unfold DatabaseServer.get_session_maker DatabaseServer._get_or_create
      simp [strTruthy, hd, hmiss]
    · unfold DatabaseServer._create DatabaseServer._create_engine
      cases s.engineKind <;>
        simp [DatabaseServer._create_mssql, DatabaseServer._create_postgres,
          DatabaseServer._create_async_postgres]
  · intro s d hd
    unfold DatabaseServer.get_session_maker
    rw [hd]
    by_cases hd0 : d = ""
    · subst hd0
      simp [strTruthy, hd]
    · simp [strTruthy, hd0, hd]

/-- Witness for C8: both parts at concrete registries. -/
theorem C8_witness :
    (srvNoDefault.get_session_maker none =
        ((srvNoDefault._create none).1.2, (srvNoDefault._create none).2) ∧
      ((srvNoDefault._create none).1.1).database = none) ∧
    srvA.get_session_maker none = srvA.get_session_maker (some "adb") :=
  ⟨C8_amended.1 srvNoDefault rfl rfl, C8_amended.2 srvA "adb" rfl⟩

/-- C9 counterexample: constructing a registry with a configured default
database eagerly creates the connection handle for it at construction
time: the fresh registry already holds one cache entry and one allocated
engine. -/
theorem C9_counterexample :
    (DatabaseServer.init "h" "u" "p" 5432 "postgres" (some "orders")).toOption.map
      (fun s => (s.databases.length, s.nextEngineId)) = some (1, 1) := rfl

/-- Fresh registry state as DatabaseServer.__init__ assembles it before
the eager default lookup. -/
def baseServer (host u p : String) (port : Nat) (kind : EngineKind)
    (default : Option String) : DatabaseServer :=
  { host := host, port := port, username := u, password := p,
    engineKind := kind, databases := [], default_database := default,
    nextEngineId := 0 }

/-- C9 amended: cache entries are created lazily at the first
session-factory request naming a database, except that a configured
(nonempty) default database has its connection handle created eagerly at
registry construction; a cache hit creates nothing. -/
theorem C9_amended :
    (∀ (host u p : String) (port : Nat) (engine : String) (kind : EngineKind),
        engineKindOfString engine = some kind →
        DatabaseServer.init host u p port engine none =
          Except.ok (baseServer host u p port kind none)) ∧
    (∀ (host u p : String) (port : Nat) (engine : String) (kind : EngineKind)
        (d : String), engineKindOfString engine = some kind → d ≠ "" →
        DatabaseServer.init host u p port engine (some d) =
          Except.ok
            ((baseServer host u p port kind (some d))._get_or_create (some d)).2) ∧
    (∀ (s : DatabaseServer) (db : Option String),
        dictLookup db s.databases = none →
        ((s._get_or_create db).2).nextEngineId = s.nextEngineId + 1 ∧
        dictLookup db ((s._get_or_create db).2).databases =
          some (s._get_or_create db).1 ∧
        ((s._get_or_create db).1.1).id = s.nextEngineId) ∧
    (∀ (s : DatabaseServer) (db : Option String) (pair : EngineObj × SessionMaker),
        dictLookup db s.databases = some pair →
        s._get_or_create db = (pair, s)) := by
  refine ⟨?_, ?_, ?_, ?_⟩
  · intro host u p port engine kind hkind
    unfold DatabaseServer.init
    rw [hkind]
    simp [strTruthy, baseServer]
  · intro host u p port engine kind d hkind hd
    unfold DatabaseServer.init
    rw [hkind]
    simp [strTruthy, hd, baseServer]
  · intro s db hmiss
    refine ⟨?_, ?_, ?_⟩
    · unfold DatabaseServer._get_or_create
      rw [hmiss]
      simp [DatabaseServer._create]
    · unfold DatabaseServer._get_or_create
      rw [hmiss]
      simp [DatabaseServer._create, dictLookup_insert_self]
    · unfold DatabaseServer._get_or_create
      rw [hmiss]
      unfold DatabaseServer._create DatabaseServer._create_engine
      cases s.engineKind <;>
        simp [DatabaseServer._create_mssql, DatabaseServer._create_postgres,
          DatabaseServer._create_async_postgres]
  · intro s db pair hhit
    unfold DatabaseServer._get_or_create
    rw [hhit]

/-- Fixture: the cached pair of server A for its default database. -/
def adbPair : EngineObj × SessionMaker :=
  (dictLookup (some "adb") srvA.databases).getD ((dummyServer._create none).1)

/-- Witness for C9: all four parts at concrete inputs. -/
theorem C9_witness :
    DatabaseServer.init "h" "u" "p" 5432 "postgres" none =
      Except.ok (baseServer "h" "u" "p" 5432 EngineKind.postgres none) ∧
    DatabaseServer.init "h" "u" "p" 5432 "postgres" (some "orders") =
      Except.ok
        ((baseServer "h" "u" "p" 5432 EngineKind.postgres
          (some "orders"))._get_or_create (some "orders")).2 ∧
    (((srvNoDefault._get_or_create (some "x")).2).nextEngineId =
        srvNoDefault.nextEngineId + 1 ∧
      dictLookup (some "x") ((srvNoDefault._get_or_create (some "x")).2).databases =
        some (srvNoDefault._get_or_create (some "x")).1 ∧
      ((srvNoDefault._get_or_create (some "x")).1.1).id =
        srvNoDefault.nextEngineId) ∧
    srvA._get_or_create (some "adb") = (adbPair, srvA) :=
  ⟨C9_amended.1 "h" "u" "p" 5432 "postgres" EngineKind.postgres rfl,
    C9_amended.2.1 "h" "u" "p" 5432 "postgres" EngineKind.postgres "orders" rfl
      (by decide),
    C9_amended.2.2.1 srvNoDefault (some "x") rfl,
    C9_amended.2.2.2 srvA (some "adb") adbPair rfl⟩

/-! Lemmas about the scope entry and exit loops. -/

theorem aenter_loop_no_close (outcome : Nat → Option ScopeSession)
    (makers : List SessionMaker) (i j : Nat) :
    ScopeEvent.closeAttempt j ∉ (DatabaseContext.aenter_loop outcome makers i).1 := by
  induction makers generalizing i with
  | nil => simp [DatabaseContext.aenter_loop]
  | cons mk rest ih =>
      unfold DatabaseContext.aenter_loop
      cases h : outcome i with
      | none => simp
      | some s => simpa using ih (i + 1)

theorem aenter_loop_fail_none (outcome : Nat → Option ScopeSession)
    (makers : List SessionMaker) (i k : Nat) (hk : k < makers.length)
    (hfail : outcome (i + k) = none) :
    (DatabaseContext.aenter_loop outcome makers i).2 = none := by
  induction makers generalizing i k with
  | nil => simp at hk
  | cons mk rest ih =>
      unfold DatabaseContext.aenter_loop
      cases h : outcome i with
      | none => simp
      | some s =>
          cases k with
          | zero => rw [Nat.add_zero] at hfail; rw [hfail] at h; cases h
          | succ k2 =>
              have hk2 : k2 < rest.length := by
                simpa [Nat.succ_lt_succ_iff] using hk
              have hfail2 : outcome (i + 1 + k2) = none := by
                rw [show i + 1 + k2 = i + (k2 + 1) by omega]
                exact hfail
              simp [ih (i + 1) k2 hk2 hfail2]

theorem aexit_loop_failfast (closeFails : Nat → Bool)
    (pre post : List ScopeSession) (bad : ScopeSession)
    (hpre : ∀ s ∈ pre, s.closeAsync = false ∧ closeFails s.sid = false)
    (hbadSync : bad.closeAsync = false) (hbadFail : closeFails bad.sid = true) :
    DatabaseContext.aexit_loop closeFails (pre ++ bad :: post) =
      (pre.map (fun s => ScopeEvent.closeAttempt s.sid) ++
        [ScopeEvent.closeAttempt bad.sid, ScopeEvent.closeFailed bad.sid],
        some (PyError.driverError bad.sid)) := by
  induction pre with
  | nil =>
      simp [DatabaseContext.aexit_loop, iscoroutinefunction_on_instance,
        hbadSync, hbadFail]
  | cons s rest ih =>
      have hs := hpre s (by simp)
      have ih2 := ih (fun t ht => hpre t (by simp [ht]))
      unfold DatabaseContext.aexit_loop
      simp [iscoroutinefunction_on_instance, hs.1, hs.2, ih2]

theorem aexit_loop_all_sync (closeFails : Nat → Bool) (l : List ScopeSession)
    (h : ∀ s ∈ l, s.closeAsync = false ∧ closeFails s.sid = false) :
    DatabaseContext.aexit_loop closeFails l =
      (l.map (fun s => ScopeEvent.closeAttempt s.sid), none) := by
  induction l with
  | nil => simp [DatabaseContext.aexit_loop]
  | cons s rest ih =>
      have hs := h s (by simp)
      have ih2 := ih (fun t ht => h t (by simp [ht]))
      unfold DatabaseContext.aexit_loop
      simp [iscoroutinefunction_on_instance, hs.1, hs.2, ih2]

theorem aexit_loop_first_async (closeFails : Nat → Bool)
    (pre post : List ScopeSession) (a : ScopeSession)
    (hpre : ∀ s ∈ pre, s.closeAsync = false ∧ closeFails s.sid = false)
    (ha : a.closeAsync = true) :
    DatabaseContext.aexit_loop closeFails (pre ++ a :: post) =
      (pre.map (fun s => ScopeEvent.closeAttempt s.sid),
        some (PyError.typeError
          "sync_to_async can only be applied to sync functions")) := by
  induction pre with
  | nil => simp [DatabaseContext.aexit_loop, iscoroutinefunction_on_instance, ha]
  | cons s rest ih =>
      have hs := hpre s (by simp)
      have ih2 := ih (fun t ht => hpre t (by simp [ht]))
      unfold DatabaseContext.aexit_loop
      simp [iscoroutinefunction_on_instance, hs.1, hs.2, ih2]

theorem aexit_of_nonempty (closeFails : Nat → Bool) (a : ScopeSession)
    (l : List ScopeSession) :
    DatabaseContext.aexit (some (a :: l)) closeFails =
      DatabaseContext.aexit_loop closeFails (a :: l) := rfl

/-- Fixture session factory used by the scope counterexamples. -/
def mkDummy : SessionMaker :=
  { bind := dummyEngine, sessionClass := SessionClass.sessionCls,
    expireOnCommit := false }

/-- Fixture instantiation outcome: factory 0 succeeds, factory 1 raises. -/
def outcomeFailSecond : Nat → Option ScopeSession := fun i =>
  if i = 0 then some { sid := 0, closeAsync := false } else none

/-- C1 counterexample: a scope over two targets whose second instantiation
fails propagates the failure with the first session still open: the trace
holds no close attempt at all (the claim requires the first session to be
closed exactly once before the failure propagates), the sessions attribute
stays unset, and the subsequent exit closes nothing. -/
theorem C1_counterexample :
    DatabaseContext.aenter [mkDummy, mkDummy] outcomeFailSecond =
      ([ScopeEvent.instantiated 0, ScopeEvent.instantiateFailed 1], none) ∧
    (DatabaseContext.aenter [mkDummy, mkDummy] outcomeFailSecond).1.count
      (ScopeEvent.closeAttempt 0) = 0 ∧
    DatabaseContext.aexit
      (DatabaseContext.aenter [mkDummy, mkDummy] outcomeFailSecond).2
      (fun _ => false) = ([], none) := by decide

/-- C1 amended: when instantiating the session for some target fails, the
sessions already opened are not closed at all before the failure
propagates: the entry trace holds no close attempt, the sessions attribute
is never assigned, and the exit protocol, seeing no sessions, closes
nothing (the already-opened sessions leak). -/
theorem C1_amended (makers : List SessionMaker)
    (outcome : Nat → Option ScopeSession) (k : Nat) (hk : k < makers.length)
    (hfail : outcome k = none) :
    (DatabaseContext.aenter makers outcome).2 = none ∧
    (∀ j, ScopeEvent.closeAttempt j ∉ (DatabaseContext.aenter makers outcome).1) ∧
    (∀ f, DatabaseContext.aexit (DatabaseContext.aenter makers outcome).2 f =
      ([], none)) := by
  have h2 : (DatabaseContext.aenter makers outcome).2 = none := by
    apply aenter_loop_fail_none outcome makers 0 k hk
    rw [Nat.zero_add]
    exact hfail
  refine ⟨h2, ?_, ?_⟩
  · intro j
    exact aenter_loop_no_close outcome makers 0 j
  · intro f
    rw [h2]
    rfl

/-- Witness for C1 at the concrete failing scope. -/
theorem C1_witness :
    (DatabaseContext.aenter [mkDummy, mkDummy] outcomeFailSecond).2 = none ∧
    ScopeEvent.closeAttempt 0 ∉
      (DatabaseContext.aenter [mkDummy, mkDummy] outcomeFailSecond).1 ∧
    DatabaseContext.aexit
      (DatabaseContext.aenter [mkDummy, mkDummy] outcomeFailSecond).2
      (fun _ => false) = ([], none) := by
  obtain ⟨h1, h2, h3⟩ :=
    C1_amended [mkDummy, mkDummy] outcomeFailSecond 1 (by decide) rfl
  exact ⟨h1, h2 0, h3 (fun _ => false)⟩

/-- Fixture: three sessions with synchronous close contracts. -/
def sess3sync : List ScopeSession :=
  [{ sid := 0, closeAsync := false }, { sid := 1, closeAsync := false },
    { sid := 2, closeAsync := false }]

/-- C2 counterexample: with three synchronously closable sessions and the
close of session 1 failing, the exit closes session 0, attempts session 1,
and then aborts: session 2 is never attempted and the surfaced error is
the bare underlying failure, not an aggregate naming each cause. -/
theorem C2_counterexample :
    DatabaseContext.aexit (some sess3sync) (fun i => i == 1) =
      ([ScopeEvent.closeAttempt 0, ScopeEvent.closeAttempt 1,
        ScopeEvent.closeFailed 1], some (PyError.driverError 1)) ∧
    ScopeEvent.closeAttempt 2 ∉
      (DatabaseContext.aexit (some sess3sync) (fun i => i == 1)).1 := by decide

/-- C2 amended: the exit protocol is fail-fast, not collect-then-raise:
when the close of some session fails (closes before it succeeding,
contracts synchronous), each earlier session was closed exactly once in
order, the failing close was attempted, every later session is left
unclosed, and the error surfaced is the failing close failure alone; no
aggregate close error exists in the code. -/
theorem C2_amended (closeFails : Nat → Bool) (pre post : List ScopeSession)
    (bad : ScopeSession)
    (hpre : ∀ s ∈ pre, s.closeAsync = false ∧ closeFails s.sid = false)
    (hbadSync : bad.closeAsync = false) (hbadFail : closeFails bad.sid = true) :
    DatabaseContext.aexit (some (pre ++ bad :: post)) closeFails =
      (pre.map (fun s => ScopeEvent.closeAttempt s.sid) ++
        [ScopeEvent.closeAttempt bad.sid, ScopeEvent.closeFailed bad.sid],
        some (PyError.driverError bad.sid)) := by
  cases pre with
  | nil =>
      rw [List.nil_append, aexit_of_nonempty]
      simpa using aexit_loop_failfast closeFails [] post bad hpre hbadSync hbadFail
  | cons a l =>
      rw [List.cons_append, aexit_of_nonempty, ← List.cons_append]
      exact aexit_loop_failfast closeFails (a :: l) post bad hpre hbadSync hbadFail

/-- Witness for C2: close 2 of 3 failing at concrete sessions. -/
theorem C2_witness :
    DatabaseContext.aexit
      (some ([({ sid := 0, closeAsync := false } : ScopeSession)] ++
        ({ sid := 1, closeAsync := false } : ScopeSession) ::
          [({ sid := 2, closeAsync := false } : ScopeSession)]))
      (fun i => i == 1) =
      ([({ sid := 0, closeAsync := false } : ScopeSession)].map
        (fun s => ScopeEvent.closeAttempt s.sid) ++
        [ScopeEvent.closeAttempt 1, ScopeEvent.closeFailed 1],
        some (PyError.driverError 1)) :=
  C2_amended (fun i => i == 1)
    [{ sid := 0, closeAsync := false }]
    [{ sid := 2, closeAsync := false }]
    { sid := 1, closeAsync := false }
    (by decide) rfl rfl

/-- C3 counterexample: a scope holding a synchronously closable session
followed by an asynchronously closable one does not close every session
exactly once: session 0 is closed, then the dispatch (which inspects the
session object, not its close method) routes session 1 into the
synchronous wrapper, which rejects its coroutine close with TypeError, so
session 1 is never closed. -/
theorem C3_counterexample :
    DatabaseContext.aexit
      (some [{ sid := 0, closeAsync := false }, { sid := 1, closeAsync := true }])
      (fun _ => false) =
      ([ScopeEvent.closeAttempt 0],
        some (PyError.typeError
          "sync_to_async can only be applied to sync functions")) ∧
    ScopeEvent.closeAttempt 1 ∉
      (DatabaseContext.aexit
        (some [{ sid := 0, closeAsync := false },
          { sid := 1, closeAsync := true }]) (fun _ => false)).1 := by decide

/-- C3 amended: the scope does not detect per-session close contracts: the
dispatch tests iscoroutinefunction of the session object, which is False
for every session, so every session is routed through the synchronous
wrapper; a scope whose sessions all close synchronously (and without
failure) closes each exactly once in order, but the first session with an
asynchronous close contract makes the wrapper raise TypeError, leaving it
and every later session unclosed. -/
theorem C3_amended :
    (∀ s, iscoroutinefunction_on_instance s = false) ∧
    (∀ (closeFails : Nat → Bool) (l : List ScopeSession),
        (∀ s ∈ l, s.closeAsync = false ∧ closeFails s.sid = false) →
        DatabaseContext.aexit (some l) closeFails =
          (l.map (fun s => ScopeEvent.closeAttempt s.sid), none)) ∧
    (∀ (closeFails : Nat → Bool) (pre post : List ScopeSession)
        (a : ScopeSession),
        (∀ s ∈ pre, s.closeAsync = false ∧ closeFails s.sid = false) →
        a.closeAsync = true →
        DatabaseContext.aexit (some (pre ++ a :: post)) closeFails =
          (pre.map (fun s => ScopeEvent.closeAttempt s.sid),
            some (PyError.typeError
              "sync_to_async can only be applied to sync functions"))) := by
  refine ⟨fun s => rfl, ?_, ?_⟩
  · intro closeFails l h
    cases l with
    | nil => rfl
    | cons a rest =>
        rw [aexit_of_nonempty]
        exact aexit_loop_all_sync closeFails (a :: rest) h
  · intro closeFails pre post a hpre ha
    cases pre with
    | nil =>
        rw [List.nil_append, aexit_of_nonempty]
        simpa using aexit_loop_first_async closeFails [] post a hpre ha
    | cons b l =>
        rw [List.cons_append, aexit_of_nonempty, ← List.cons_append]
        exact aexit_loop_first_async closeFails (b :: l) post a hpre ha

/-- Witness for C3: the three parts at concrete sessions of mixed
contracts. -/
theorem C3_witness :
    iscoroutinefunction_on_instance { sid := 7, closeAsync := true } = false ∧
    DatabaseContext.aexit (some [({ sid := 5, closeAsync := false } : ScopeSession)])
      (fun _ => false) =
      ([({ sid := 5, closeAsync := false } : ScopeSession)].map
        (fun s => ScopeEvent.closeAttempt s.sid), none) ∧
    DatabaseContext.aexit
      (some ([({ sid := 0, closeAsync := false } : ScopeSession)] ++
        ({ sid := 1, closeAsync := true } : ScopeSession) :: []))
      (fun _ => false) =
      ([({ sid := 0, closeAsync := false } : ScopeSession)].map
        (fun s => ScopeEvent.closeAttempt s.sid),
        some (PyError.typeError
          "sync_to_async can only be applied to sync functions")) :=
  ⟨C3_amended.1 { sid := 7, closeAsync := true },
    C3_amended.2.1 (fun _ => false) [{ sid := 5, closeAsync := false }]
      (by decide),
    C3_amended.2.2 (fun _ => false) [{ sid := 0, closeAsync := false }] []
      { sid := 1, closeAsync := true } (by decide) rfl⟩

/-! Lemmas about reference resolution. -/

theorem resolve_loop_one (m : DatabaseManager) (ref : DBR)
    (hd : Option String × Option String)
    (h : DatabaseContext.resolve_ref ref = Except.ok hd) :
    DatabaseContext.resolve_loop m [ref] =
      (m.get_session_maker_via hd.1 hd.2).map (fun r => ([r.1], r.2)) := by
  unfold DatabaseContext.resolve_loop
  rw [h]
  dsimp only
  cases hg : m.get_session_maker_via hd.1 hd.2 with
  | error e => simp [Except.map]
  | ok r => simp [Except.map, DatabaseContext.resolve_loop]

theorem gsm_default_subst (s : DatabaseServer) (d : String)
    (hd : s.default_database = some d) :
    s.get_session_maker none = s.get_session_maker (some d) := by
  unfold DatabaseServer.get_session_maker
  rw [hd]
  by_cases hd0 : d = ""
  · subst hd0
    simp [strTruthy, hd]
  · simp [strTruthy, hd0, hd]

theorem gsmv_none_eval (m : DatabaseManager) (h : String) (srv : DatabaseServer)
    (hdef : m.default_server = some h)
    (hlook : dictLookup h m.database_servers = some srv) :
    m.get_session_maker_via none none =
      Except.ok ((srv.get_session_maker none).1,
        { m with database_servers :=
            dictInsert h (srv.get_session_maker none).2 m.database_servers }) := by
  unfold DatabaseManager.get_session_maker_via
  have hk1 : m.resolve_key none = Except.ok h := by
    simp [DatabaseManager.resolve_key, strTruthy, DatabaseManager.default_key, hdef]
  rw [hk1]
  dsimp only
  rw [hlook]

theorem gsmv_default_eq (m : DatabaseManager) (h : String) (srv : DatabaseServer)
    (d : String) (hdef : m.default_server = some h)
    (hlook : dictLookup h m.database_servers = some srv)
    (hdb : srv.default_database = some d) :
    m.get_session_maker_via none none =
      m.get_session_maker_via (some h) (some d) := by
  unfold DatabaseManager.get_session_maker_via
  have hk1 : m.resolve_key none = Except.ok h := by
    simp [DatabaseManager.resolve_key, strTruthy, DatabaseManager.default_key, hdef]
  have hk2 : m.resolve_key (some h) = Except.ok h := by
    by_cases hh : h = ""
    · subst hh
      simp [DatabaseManager.resolve_key, strTruthy, DatabaseManager.default_key,
        hdef]
    · simp [DatabaseManager.resolve_key, strTruthy, hh]
  rw [hk1, hk2]
  dsimp only
  rw [hlook]
  dsimp only
  rw [gsm_default_subst srv d hdb]

/-- Fixture: manager over servers A (registered first, hence default) and
B, with default databases adb and bdb respectively. -/
def mgr2 : DatabaseManager := DatabaseManager.init [srvA, srvB]

/-- C5 counterexample: in a manager whose default server is A, the
reference list holding the bare host token B resolves exactly as an empty
reference list does, to the default server A with database adb; it does
not resolve to host B (resolving the 1-tuple of B gives a different
result, backed by an engine whose host is B). -/
theorem C5_counterexample :
    DatabaseContext.resolve_makers mgr2 (some [DBR.str "B"]) =
      DatabaseContext.resolve_makers mgr2 none ∧
    (DatabaseContext.resolve_makers mgr2 (some [DBR.str "B"])).toOption.map
      (fun r => r.1.map (fun mk => (mk.bind.host, mk.bind.database))) =
      some [("A", some "adb")] ∧
    (DatabaseContext.resolve_makers mgr2 (some [DBR.tup ["B"]])).toOption.map
      (fun r => r.1.map (fun mk => (mk.bind.host, mk.bind.database))) =
      some [("B", some "bdb")] := by
  exact ⟨rfl, rfl, rfl⟩

/-- C5 amended: a single-token reference written as a bare string is
ignored by resolution: host and database stay None, so it resolves to the
default server with its default database, exactly as an empty reference
list does; only a single-token reference written as a 1-tuple resolves to
the named host (with that host default database, none being given). -/
theorem C5_amended (m : DatabaseManager) (t h : String) :
    DatabaseContext.resolve_makers m (some [DBR.str t]) =
      (m.get_session_maker_via none none).map (fun r => ([r.1], r.2)) ∧
    DatabaseContext.resolve_makers m (some [DBR.str t]) =
      DatabaseContext.resolve_makers m none ∧
    DatabaseContext.resolve_makers m (some [DBR.tup [h]]) =
      (m.get_session_maker_via (some h) none).map (fun r => ([r.1], r.2)) := by
  refine ⟨?_, ?_, ?_⟩
  · exact resolve_loop_one m (DBR.str t) (none, none) rfl
  · exact resolve_loop_one m (DBR.str t) (none, none) rfl
  · exact resolve_loop_one m (DBR.tup [h]) (some h, none) rfl

/-- C6: opening a scope with an empty or None reference list is the same
as opening it with the single reference (default host, default database
of the default server): the resolved factories and resulting manager
state coincide, and exactly one factory (hence one session) is produced,
bound to the default server. -/
theorem C6_default_equiv (m : DatabaseManager) (h : String)
    (srv : DatabaseServer) (d : String) (hdef : m.default_server = some h)
    (hlook : dictLookup h m.database_servers = some srv)
    (hdb : srv.default_database = some d) :
    DatabaseContext.resolve_makers m none =
      DatabaseContext.resolve_makers m (some [DBR.tup [h, d]]) ∧
    DatabaseContext.resolve_makers m (some []) =
      DatabaseContext.resolve_makers m none ∧
    (∃ m2, DatabaseContext.resolve_makers m none =
      Except.ok ([(srv.get_session_maker none).1], m2)) := by
  refine ⟨?_, rfl, ?_⟩
  · have h1 : DatabaseContext.resolve_makers m none =
        (m.get_session_maker_via none none).map (fun r => ([r.1], r.2)) := rfl
    have h2 : DatabaseContext.resolve_makers m (some [DBR.tup [h, d]]) =
        DatabaseContext.resolve_loop m [DBR.tup [h, d]] := rfl
    rw [h1, h2, resolve_loop_one m (DBR.tup [h, d]) (some h, some d) rfl,
      gsmv_default_eq m h srv d hdef hlook hdb]
  · have h1 : DatabaseContext.resolve_makers m none =
        (m.get_session_maker_via none none).map (fun r => ([r.1], r.2)) := rfl
    exact ⟨_, by rw [h1, gsmv_none_eval m h srv hdef hlook]; rfl⟩

/-- Witness for C6 at the concrete two-server manager. -/
theorem C6_witness :
    DatabaseContext.resolve_makers mgr2 none =
      DatabaseContext.resolve_makers mgr2 (some [DBR.tup ["A", "adb"]]) ∧
    DatabaseContext.resolve_makers mgr2 (some []) =
      DatabaseContext.resolve_makers mgr2 none ∧
    (∃ m2, DatabaseContext.resolve_makers mgr2 none =
      Except.ok ([(srvA.get_session_maker none).1], m2)) :=
  C6_default_equiv mgr2 "A" srvA "adb" rfl rfl rfl
